import Mathlib

/-!
Verification development for the BlackJackAdvisor decision engine.

The definitions below are a shallow embedding of the Python sources:
`src/core/types.py`, `src/core/primitives.py`, `src/strategy/lookup.py`,
`src/strategy/deviations.py`, `src/strategy/engine.py`,
`src/betting/estimator.py`, `src/betting/kelly.py`, `src/betting/engine.py`,
`src/state/manager.py` and `interfaces/simulator.py`.

Python floats are modelled by ℚ; Python `round(x, 2)` (round half to even)
is modelled exactly on the rational value.
-/

set_option allowUnsafeReducibility true in
attribute [semireducible] Rat.mul Rat.inv Rat.add Rat.sub Rat.ofScientific

set_option maxRecDepth 40000

namespace BJA

/-- Card ranks, from `types.py` `Rank`. -/
inductive Rank
  | TWO | THREE | FOUR | FIVE | SIX | SEVEN | EIGHT | NINE | TEN
  | JACK | QUEEN | KING | ACE
deriving DecidableEq, Repr

/-- `Rank.blackjack_value` from `types.py`: 2-10 face value, J/Q/K 10, Ace 11. -/
def Rank.blackjack_value : Rank → ℕ
  | .TWO => 2 | .THREE => 3 | .FOUR => 4 | .FIVE => 5 | .SIX => 6
  | .SEVEN => 7 | .EIGHT => 8 | .NINE => 9 | .TEN => 10
  | .JACK => 10 | .QUEEN => 10 | .KING => 10 | .ACE => 11

/-- `Rank.hilo_tag` from `types.py`: +1 for 2-6, 0 for 7-9, -1 for 10-A. -/
def Rank.hilo_tag : Rank → ℤ
  | .TWO => 1 | .THREE => 1 | .FOUR => 1 | .FIVE => 1 | .SIX => 1
  | .SEVEN => 0 | .EIGHT => 0 | .NINE => 0
  | .TEN => -1 | .JACK => -1 | .QUEEN => -1 | .KING => -1 | .ACE => -1

/-- Card suits, from `types.py` `Suit`. -/
inductive Suit
  | HEARTS | DIAMONDS | CLUBS | SPADES
deriving DecidableEq, Repr

/-- A playing card, from `primitives.py` `Card`. -/
structure Card where
  rank : Rank
  suit : Suit
deriving DecidableEq, Repr

/-- `Card.value` property. -/
def Card.value (c : Card) : ℕ := c.rank.blackjack_value

/-- `Card.hilo_tag` property. -/
def Card.hilo_tag (c : Card) : ℤ := c.rank.hilo_tag

/-- `Card.is_ace` property. -/
def Card.is_ace (c : Card) : Bool := c.rank = Rank.ACE

/-- The five player actions, from `types.py` `Action`. -/
inductive Action
  | STAND | HIT | DOUBLE | SPLIT | SURRENDER
deriving DecidableEq, Repr

/-- Hand classification, from `types.py` `HandType`. -/
inductive HandType
  | HARD | SOFT | PAIR
deriving DecidableEq, Repr

/-- Direction of a count-based deviation trigger, from `types.py`. -/
inductive DeviationDirection
  | ABOVE_OR_EQUAL | BELOW
deriving DecidableEq, Repr

/-- A player hand, from `primitives.py` `Hand` (fields as in the dataclass). -/
structure Hand where
  cards : List Card
  is_pair : Bool
  is_soft : Bool
  total : ℕ
deriving DecidableEq, Repr

/-- The ace-reduction loop in `Hand.from_cards`: while the total is over 21
and an Ace still counts as 11, turn one Ace from 11 into 1.  Returns the
final total and the number of Aces still counted as 11. -/
def reduceAces : ℕ → ℕ → ℕ × ℕ
  | total, 0 => (total, 0)
  | total, n + 1 => if 21 < total then reduceAces (total - 10) n else (total, n + 1)

/-- `Hand.from_cards` from `primitives.py`. -/
def Hand.from_cards (cards : List Card) : Hand :=
  let total0 := (cards.map Card.value).sum
  let numAces := (cards.filter Card.is_ace).length
  let r := reduceAces total0 numAces
  let isSoft : Bool := 0 < r.2 && r.1 ≤ 21
  let isPair : Bool :=
    match cards with
    | [a, b] => a.rank = b.rank
    | _ => false
  ⟨cards, isPair, isSoft, r.1⟩

/-- `Hand.pair_value` property: 11 for Aces, else the blackjack value of the
first card.  (The source raises on non-pairs; it is only consulted on pairs.) -/
def Hand.pair_value (h : Hand) : ℕ :=
  match h.cards with
  | c :: _ => if c.is_ace then 11 else c.value
  | [] => 0

/-- `Hand.hand_type` property: PAIR before SOFT before HARD. -/
def Hand.hand_type (h : Hand) : HandType :=
  if h.is_pair then HandType.PAIR
  else if h.is_soft then HandType.SOFT
  else HandType.HARD

/-- The dealer up-card value used throughout the strategy code:
`dealer_up.value if not dealer_up.is_ace else 11`. -/
def dealerValue (c : Card) : ℕ :=
  if c.is_ace then 11 else c.value

/-- Character used in lookup keys for each hand type (`HandType.value`). -/
def HandType.str : HandType → String
  | .HARD => "H" | .SOFT => "S" | .PAIR => "P"

/-- Zero-padding to two digits, as Python `f-string` `{v:02d}`. -/
def pad2 (n : ℕ) : String :=
  if n < 10 then "0" ++ toString n else toString n

/-- ASCII upper-casing as Python `str.upper()` on the token strings used here. -/
def upperStr (s : String) : String := ⟨s.data.map Char.toUpper⟩

/-- `StrategyLookup._action_map` from `lookup.py` (note the mixed-case keys
for conditional tokens, kept exactly as in the source). -/
def action_map : List (String × Action) :=
  [("STAND", Action.STAND), ("HIT", Action.HIT), ("DOUBLE", Action.DOUBLE),
   ("SPLIT", Action.SPLIT), ("SURRENDER", Action.SURRENDER),
   ("Ds", Action.DOUBLE), ("Dh", Action.DOUBLE),
   ("Rh", Action.SURRENDER), ("Rs", Action.SURRENDER), ("Rp", Action.SURRENDER),
   ("Ph", Action.SPLIT), ("Pd", Action.SPLIT)]

/-- The final step of `StrategyLookup.lookup`:
`self._action_map.get(action_str.upper(), None)`. -/
def token_to_action (s : String) : Option Action :=
  action_map.lookup (upperStr s)

/-- `StrategyLookup._generate_key`: `"{HandType}_{Value}:{DealerUp:02d}"`,
pair values zero-padded, hard/soft totals not. -/
def generate_key (hand : Hand) (dealer_up : Card) : String :=
  let ht := hand.hand_type.str
  let dv := dealerValue dealer_up
  if hand.is_pair then
    ht ++ "_" ++ pad2 hand.pair_value ++ ":" ++ pad2 dv
  else
    ht ++ "_" ++ toString hand.total ++ ":" ++ pad2 dv

/-- `StrategyLookup._generate_alt_key`: same key without zero padding. -/
def generate_alt_key (hand : Hand) (dealer_up : Card) : String :=
  let ht := hand.hand_type.str
  let dv := dealerValue dealer_up
  let v := if hand.is_pair then hand.pair_value else hand.total
  ht ++ "_" ++ toString v ++ ":" ++ toString dv

/-- `StrategyLookup.lookup` from `lookup.py`: primary key, then the alternate
key only when the primary key is absent, then the token map. -/
def lookup_action (table : List (String × String)) (hand : Hand) (dealer_up : Card) :
    Option Action :=
  match table.lookup (generate_key hand dealer_up) with
  | some s => token_to_action s
  | none =>
    match table.lookup (generate_alt_key hand dealer_up) with
    | some s => token_to_action s
    | none => none

/-- `StrategyEngine._validate_action` from `engine.py`. -/
def validate_action (a : Action) (hand : Hand) : Action :=
  if a = Action.DOUBLE ∧ 2 < hand.cards.length then Action.HIT
  else if a = Action.SPLIT ∧ hand.is_pair = false then Action.HIT
  else if a = Action.SURRENDER ∧ 2 < hand.cards.length then Action.HIT
  else a

/-- `StrategyEngine._calculate_fallback_action` from `engine.py`. -/
def fallback_action (hand : Hand) (dealer_up : Card) : Action :=
  let total := hand.total
  let dv := dealerValue dealer_up
  if hand.is_soft = false then
    if 17 ≤ total then Action.STAND
    else if 13 ≤ total ∧ dv ≤ 6 then Action.STAND
    else if total = 12 ∧ 4 ≤ dv ∧ dv ≤ 6 then Action.STAND
    else if total = 11 then (if hand.cards.length = 2 then Action.DOUBLE else Action.HIT)
    else if total = 10 ∧ dv ≤ 9 then (if hand.cards.length = 2 then Action.DOUBLE else Action.HIT)
    else if total = 9 ∧ 3 ≤ dv ∧ dv ≤ 6 then (if hand.cards.length = 2 then Action.DOUBLE else Action.HIT)
    else Action.HIT
  else
    if 19 ≤ total then Action.STAND
    else if total = 18 then (if 9 ≤ dv then Action.HIT else Action.STAND)
    else Action.HIT

/-- `StrategyEngine._get_fallback_strategy` from `engine.py`: the in-memory
table used when the JSON strategy files are unavailable. -/
def fallback_strategy : List (String × String) :=
  [("H_17:02", "STAND"), ("H_17:07", "STAND"), ("H_17:10", "STAND"),
   ("H_16:02", "STAND"), ("H_16:07", "HIT"), ("H_16:10", "HIT"),
   ("H_15:02", "STAND"), ("H_15:07", "HIT"), ("H_15:10", "HIT"),
   ("H_14:02", "STAND"), ("H_14:07", "HIT"), ("H_14:10", "HIT"),
   ("H_13:02", "STAND"), ("H_13:07", "HIT"), ("H_13:10", "HIT"),
   ("H_12:02", "HIT"), ("H_12:04", "STAND"), ("H_12:07", "HIT"),
   ("H_11:02", "DOUBLE"), ("H_11:10", "DOUBLE"), ("H_11:11", "HIT"),
   ("H_10:02", "DOUBLE"), ("H_10:10", "HIT"), ("H_10:11", "HIT"),
   ("H_9:02", "HIT"), ("H_9:03", "DOUBLE"), ("H_9:07", "HIT"),
   ("S_20:02", "STAND"), ("S_20:10", "STAND"),
   ("S_19:02", "STAND"), ("S_19:06", "DOUBLE"), ("S_19:10", "STAND"),
   ("S_18:02", "STAND"), ("S_18:09", "HIT"), ("S_18:10", "HIT"),
   ("S_17:02", "HIT"), ("S_17:03", "DOUBLE"), ("S_17:07", "HIT"),
   ("P_11:02", "SPLIT"), ("P_11:10", "SPLIT"),
   ("P_10:02", "STAND"), ("P_10:10", "STAND"),
   ("P_08:02", "SPLIT"), ("P_08:10", "SPLIT")]

/-- `StrategyEngine._get_baseline_action` from `engine.py`. -/
def get_baseline_action (table : List (String × String)) (hand : Hand) (dealer_up : Card) :
    Action :=
  match lookup_action table hand dealer_up with
  | some a => validate_action a hand
  | none => fallback_action hand dealer_up

/-- `deviations.py` `DeviationTrigger`. -/
structure DeviationTrigger where
  hand_type : HandType
  value : ℕ
  dealer_up : ℕ
deriving DecidableEq, Repr

/-- `deviations.py` `DeviationRule`. -/
structure DeviationRule where
  threshold : ℚ
  direction : DeviationDirection
  action : Action
deriving DecidableEq, Repr

/-- `deviations.py` `Deviation`. -/
structure Deviation where
  id : String
  trigger : DeviationTrigger
  rule : DeviationRule
  priority : ℤ
deriving DecidableEq, Repr

/-- `Deviation.is_triggered` from `deviations.py`. -/
def Deviation.is_triggered (d : Deviation) (true_count : ℚ) : Bool :=
  match d.rule.direction with
  | .ABOVE_OR_EQUAL => d.rule.threshold ≤ true_count
  | .BELOW => true_count < d.rule.threshold

/-- `Deviation.get_action` from `deviations.py`. -/
def Deviation.get_action (d : Deviation) : Action := d.rule.action

/-- The lookup key `DeviationEngine.check_deviation` builds for a hand:
PAIR (with `pair_value`) before SOFT before HARD (with `total`), plus the
dealer up value.  The source encodes this triple as the index key string
`"{type}_{value}_{dealer}"`; components determine that string uniquely. -/
def dev_key (hand : Hand) (dealer_up : Card) : HandType × ℕ × ℕ :=
  if hand.is_pair then (HandType.PAIR, hand.pair_value, dealerValue dealer_up)
  else if hand.is_soft then (HandType.SOFT, hand.total, dealerValue dealer_up)
  else (HandType.HARD, hand.total, dealerValue dealer_up)

/-- Whether a deviation is stored in the index bucket of a key
(`DeviationEngine._rebuild_index` groups by exactly these three fields). -/
def matches_index (d : Deviation) (k : HandType × ℕ × ℕ) : Bool :=
  d.trigger.hand_type = k.1 && d.trigger.value = k.2.1 && d.trigger.dealer_up = k.2.2

/-- One insertion step of a stable descending sort by priority, matching
Python's stable `list.sort(key=priority, reverse=True)` used in
`DeviationEngine._rebuild_index`. -/
def insert_desc (d : Deviation) : List Deviation → List Deviation
  | [] => [d]
  | e :: es => if e.priority ≤ d.priority then d :: e :: es else e :: insert_desc d es

/-- Stable descending sort by priority (higher priority first, ties keep
insertion order), as in `DeviationEngine._rebuild_index`. -/
def sort_desc (l : List Deviation) : List Deviation := l.foldr insert_desc []

/-- `DeviationEngine.check_deviation` from `deviations.py`: consult only the
index bucket of the hand's classification key and return the action of the
first (highest-priority) triggered deviation. -/
def check_deviation (devs : List Deviation) (hand : Hand) (dealer_up : Card)
    (true_count : ℚ) : Option Action :=
  let k := dev_key hand dealer_up
  let candidates := sort_desc (devs.filter (fun d => matches_index d k))
  (candidates.find? (fun d => d.is_triggered true_count)).map Deviation.get_action

/-- `DeviationEngine.check_surrender_deviation` from `deviations.py`. -/
def check_surrender_deviation (devs : List Deviation) (hand : Hand) (dealer_up : Card)
    (true_count : ℚ) : Option Action :=
  match check_deviation devs hand dealer_up true_count with
  | some a => if a = Action.SURRENDER then some a else none
  | none => none

/-- `StrategyEngine._get_triggered_deviation_id` from `engine.py`. -/
def dev_id (hand : Hand) (dealer_up : Card) : String :=
  let desc :=
    if hand.is_pair then "P" ++ toString hand.pair_value
    else if hand.is_soft then "S" ++ toString hand.total
    else "H" ++ toString hand.total
  "DEV_" ++ desc ++ "v" ++ toString (dealerValue dealer_up)

/-- `StrategyEngine._check_deviation_with_margin` from `engine.py`: the
engine subtracts the configured margin from the observed true count before
consulting the deviation engine. -/
def check_deviation_with_margin (devs : List Deviation) (hand : Hand) (dealer_up : Card)
    (true_count margin : ℚ) (surrender_only : Bool) : Option (String × Action) :=
  let adjusted := true_count - margin
  if surrender_only then
    match check_surrender_deviation devs hand dealer_up adjusted with
    | some a => some (dev_id hand dealer_up, a)
    | none => none
  else
    match check_deviation devs hand dealer_up adjusted with
    | some a =>
      if a ≠ Action.SURRENDER then some (dev_id hand dealer_up, a) else none
    | none => none

/-- The predicate `decide` applies to one deviation: `Deviation.is_triggered`
evaluated at the margin-adjusted true count (`engine.py` lines 279-299 and
`deviations.py` lines 56-61). -/
def dev_predicate (d : Deviation) (true_count margin : ℚ) : Bool :=
  d.is_triggered (true_count - margin)

/-- `StrategyEngine._decide_split_with_context` from `engine.py`. -/
def decide_split_with_context (devs : List Deviation) (hand : Hand) (dealer_up : Card)
    (true_count margin : ℚ) : Option (String × Action) :=
  match check_deviation_with_margin devs hand dealer_up true_count margin false with
  | some r => if r.2 = Action.SPLIT then some r else none
  | none => none

/-- `engine.py` `DecisionResult`. -/
structure DecisionResult where
  action : Action
  baseline_action : Action
  deviation_id : Option String
  true_count : ℚ
deriving DecidableEq, Repr

/-- `DecisionResult.deviated` property: true iff the chosen action differs
from the baseline action. -/
def DecisionResult.deviated (r : DecisionResult) : Bool :=
  r.action ≠ r.baseline_action

/-- `StrategyEngine.decide_with_context` from `engine.py`, parameterized by
the loaded strategy table, the deviation list, and the rule configuration
fields it reads (`surrender_allowed` and `deviation_threshold_margin`). -/
def decide_with_context (table : List (String × String)) (devs : List Deviation)
    (surrender_allowed : Bool) (margin : ℚ) (hand : Hand) (dealer_up : Card)
    (true_count : ℚ) (use_deviations : Bool) : DecisionResult :=
  let baseline := get_baseline_action table hand dealer_up
  if use_deviations = false then ⟨baseline, baseline, none, true_count⟩
  else
    let surStep :=
      if surrender_allowed && hand.cards.length = 2 then
        check_deviation_with_margin devs hand dealer_up true_count margin true
      else none
    match surStep with
    | some r => ⟨r.2, baseline, some r.1, true_count⟩
    | none =>
      let splitStep : Option DecisionResult :=
        if hand.is_pair then
          match decide_split_with_context devs hand dealer_up true_count margin with
          | some r =>
            if r.2 = Action.SPLIT then some ⟨r.2, baseline, some r.1, true_count⟩
            else none
          | none => none
        else none
      match splitStep with
      | some r => r
      | none =>
        if hand.is_pair && baseline = Action.SPLIT then
          ⟨Action.SPLIT, baseline, none, true_count⟩
        else
          match check_deviation_with_margin devs hand dealer_up true_count margin false with
          | some r =>
            if r.2 ≠ Action.SURRENDER then ⟨r.2, baseline, some r.1, true_count⟩
            else ⟨baseline, baseline, none, true_count⟩
          | none => ⟨baseline, baseline, none, true_count⟩

/-- `ILLUSTRIOUS_18` entry 16v10 from `deviations.py`. -/
def ILL_16v10 : Deviation :=
  ⟨"ILL_16v10", ⟨HandType.HARD, 16, 10⟩, ⟨0, .ABOVE_OR_EQUAL, .STAND⟩, 1⟩

/-- `ILLUSTRIOUS_18` entry 15v10. -/
def ILL_15v10 : Deviation :=
  ⟨"ILL_15v10", ⟨HandType.HARD, 15, 10⟩, ⟨4, .ABOVE_OR_EQUAL, .STAND⟩, 2⟩

/-- `ILLUSTRIOUS_18` entry 20vA. -/
def ILL_20vA : Deviation :=
  ⟨"ILL_20vA", ⟨HandType.PAIR, 10, 11⟩, ⟨6, .ABOVE_OR_EQUAL, .SPLIT⟩, 3⟩

/-- `ILLUSTRIOUS_18` entry 10v10. -/
def ILL_10v10 : Deviation :=
  ⟨"ILL_10v10", ⟨HandType.HARD, 10, 10⟩, ⟨4, .ABOVE_OR_EQUAL, .DOUBLE⟩, 4⟩

/-- `ILLUSTRIOUS_18` entry 12v3. -/
def ILL_12v3 : Deviation :=
  ⟨"ILL_12v3", ⟨HandType.HARD, 12, 3⟩, ⟨2, .ABOVE_OR_EQUAL, .STAND⟩, 5⟩

/-- `ILLUSTRIOUS_18` entry 12v2. -/
def ILL_12v2 : Deviation :=
  ⟨"ILL_12v2", ⟨HandType.HARD, 12, 2⟩, ⟨3, .ABOVE_OR_EQUAL, .STAND⟩, 6⟩

/-- `ILLUSTRIOUS_18` entry 11vA. -/
def ILL_11vA : Deviation :=
  ⟨"ILL_11vA", ⟨HandType.HARD, 11, 11⟩, ⟨1, .ABOVE_OR_EQUAL, .DOUBLE⟩, 7⟩

/-- `ILLUSTRIOUS_18` entry 9v2. -/
def ILL_9v2 : Deviation :=
  ⟨"ILL_9v2", ⟨HandType.HARD, 9, 2⟩, ⟨1, .ABOVE_OR_EQUAL, .DOUBLE⟩, 8⟩

/-- `ILLUSTRIOUS_18` entry 10vA. -/
def ILL_10vA : Deviation :=
  ⟨"ILL_10vA", ⟨HandType.HARD, 10, 11⟩, ⟨4, .ABOVE_OR_EQUAL, .DOUBLE⟩, 9⟩

/-- `ILLUSTRIOUS_18` entry 9v7. -/
def ILL_9v7 : Deviation :=
  ⟨"ILL_9v7", ⟨HandType.HARD, 9, 7⟩, ⟨3, .ABOVE_OR_EQUAL, .DOUBLE⟩, 10⟩

/-- `ILLUSTRIOUS_18` entry 16v9. -/
def ILL_16v9 : Deviation :=
  ⟨"ILL_16v9", ⟨HandType.HARD, 16, 9⟩, ⟨5, .ABOVE_OR_EQUAL, .STAND⟩, 11⟩

/-- `ILLUSTRIOUS_18` entry 13v2. -/
def ILL_13v2 : Deviation :=
  ⟨"ILL_13v2", ⟨HandType.HARD, 13, 2⟩, ⟨-1, .BELOW, .HIT⟩, 12⟩

/-- `ILLUSTRIOUS_18` entry 12v4. -/
def ILL_12v4 : Deviation :=
  ⟨"ILL_12v4", ⟨HandType.HARD, 12, 4⟩, ⟨0, .BELOW, .HIT⟩, 13⟩

/-- `ILLUSTRIOUS_18` entry 12v5. -/
def ILL_12v5 : Deviation :=
  ⟨"ILL_12v5", ⟨HandType.HARD, 12, 5⟩, ⟨-2, .BELOW, .HIT⟩, 14⟩

/-- `ILLUSTRIOUS_18` entry 12v6. -/
def ILL_12v6 : Deviation :=
  ⟨"ILL_12v6", ⟨HandType.HARD, 12, 6⟩, ⟨-1, .BELOW, .HIT⟩, 15⟩

/-- `ILLUSTRIOUS_18` entry 13v3. -/
def ILL_13v3 : Deviation :=
  ⟨"ILL_13v3", ⟨HandType.HARD, 13, 3⟩, ⟨-2, .BELOW, .HIT⟩, 16⟩

/-- `FAB_4` entry 15v10. -/
def FAB_15v10 : Deviation :=
  ⟨"FAB_15v10", ⟨HandType.HARD, 15, 10⟩, ⟨0, .ABOVE_OR_EQUAL, .SURRENDER⟩, 100⟩

/-- `FAB_4` entry 15vA. -/
def FAB_15vA : Deviation :=
  ⟨"FAB_15vA", ⟨HandType.HARD, 15, 11⟩, ⟨1, .ABOVE_OR_EQUAL, .SURRENDER⟩, 101⟩

/-- `FAB_4` entry 14v10. -/
def FAB_14v10 : Deviation :=
  ⟨"FAB_14v10", ⟨HandType.HARD, 14, 10⟩, ⟨3, .ABOVE_OR_EQUAL, .SURRENDER⟩, 102⟩

/-- `FAB_4` entry 15v9. -/
def FAB_15v9 : Deviation :=
  ⟨"FAB_15v9", ⟨HandType.HARD, 15, 9⟩, ⟨2, .ABOVE_OR_EQUAL, .SURRENDER⟩, 103⟩

/-- `ILLUSTRIOUS_18 + FAB_4`, the set used by
`create_standard_deviation_engine`. -/
def standard_deviations : List Deviation :=
  [ILL_16v10, ILL_15v10, ILL_20vA, ILL_10v10, ILL_12v3, ILL_12v2, ILL_11vA,
   ILL_9v2, ILL_10vA, ILL_9v7, ILL_16v9, ILL_13v2, ILL_12v4, ILL_12v5,
   ILL_12v6, ILL_13v3, FAB_15v10, FAB_15vA, FAB_14v10, FAB_15v9]

/-- `engine.py` (betting) `BettingConfig`. -/
structure BettingConfig where
  kelly_fraction : ℚ
  table_min : ℚ
  table_max : ℚ
  max_spread : ℚ
  num_decks : ℕ
  flat_betting : Bool
  max_betting_penetration : ℚ
deriving DecidableEq, Repr

/-- The `BettingConfig()` defaults: half-Kelly, $10-$1000 limits, 1-12
spread, 6 decks, Kelly mode, 0.85 defensive cutoff. -/
def default_betting_config : BettingConfig :=
  ⟨1/2, 10, 1000, 12, 6, false, 85/100⟩

/-- `estimator.py` `AdvantageModel`. -/
structure AdvantageModel where
  slope : ℚ
  baseline_edge : ℚ
deriving DecidableEq, Repr

/-- The `AdvantageModel()` defaults used when no rules are injected:
slope 0.005, baseline edge 0.005. -/
def default_model : AdvantageModel := ⟨5/1000, 5/1000⟩

/-- `loader.py` `GameRules` (the fields the advantage model reads, with their
defaults). -/
structure GameRules where
  dealer_stands_soft_17 : Bool
  double_after_split : Bool
  surrender_allowed : Bool
  double_9_10_11_only : Bool
  double_10_11_only : Bool
  blackjack_pays : ℚ
deriving DecidableEq, Repr

/-- The `GameRules()` defaults: S17, DAS, late surrender, any-two doubling,
3:2 blackjack. -/
def default_game_rules : GameRules := ⟨true, true, true, false, false, 3/2⟩

/-- `AdvantageModel.from_rules` from `estimator.py`: the rule-adjusted
baseline edge. -/
def advantage_model_from_rules (rules : GameRules) : AdvantageModel :=
  let b0 : ℚ := 4/1000
  let b1 := if rules.dealer_stands_soft_17 = false then b0 + 22/10000 else b0
  let b2 := if rules.blackjack_pays < 14/10 then b1 + 139/10000 else b1
  let b3 := if rules.double_after_split = false then b2 + 14/10000 else b2
  let b4 := if rules.surrender_allowed = false then b3 + 8/10000 else b3
  let b5 :=
    if rules.double_10_11_only then b4 + 18/10000
    else if rules.double_9_10_11_only then b4 + 9/10000
    else b4
  ⟨5/1000, b5⟩

/-- `AdvantageModel.calculate_advantage`: `TC * slope - baseline_edge`. -/
def calculate_advantage (m : AdvantageModel) (true_count : ℚ) : ℚ :=
  true_count * m.slope - m.baseline_edge

/-- `EVEstimator.estimate_advantage` from `estimator.py`, with the optional
deck-count adjustment factor `1 + (6/num_decks − 1) × 0.1`. -/
def estimate_advantage (m : AdvantageModel) (deck_adjustment : Bool)
    (true_count : ℚ) (num_decks : ℕ) : ℚ :=
  let base := calculate_advantage m true_count
  if deck_adjustment then
    let deck_factor : ℚ := 6 / (num_decks : ℚ)
    base * (1 + (deck_factor - 1) * (1/10))
  else base

/-- `KellyCalculator.calculate_bet_fraction` from `kelly.py`. -/
def calculate_bet_fraction (kelly_fraction variance advantage : ℚ) : ℚ :=
  if advantage ≤ 0 then 0 else advantage / variance * kelly_fraction

/-- `BetLimits.clamp` from `kelly.py`: `max(table_min, min(table_max, bet))`. -/
def clamp_limits (table_min table_max bet : ℚ) : ℚ :=
  max table_min (min table_max bet)

/-- `KellyCalculator.calculate_bet_amount` from `kelly.py`. -/
def calculate_bet_amount (kelly_fraction variance advantage bankroll
    table_min table_max : ℚ) : ℚ :=
  if bankroll ≤ 0 then 0
  else
    let bet := bankroll * calculate_bet_fraction kelly_fraction variance advantage
    min (clamp_limits table_min table_max bet) bankroll

/-- Round half to even on an exact rational, the semantics of Python's
`round` on the (idealized) value. -/
def round_half_even (q : ℚ) : ℤ :=
  let f := ⌊q⌋
  if q - f < 1/2 then f
  else if 1/2 < q - f then f + 1
  else if f % 2 = 0 then f else f + 1

/-- Python `round(x, 2)`, modelled exactly on the rational value. -/
def round2 (q : ℚ) : ℚ := (round_half_even (q * 100) : ℚ) / 100

/-- The Kelly path of `BettingEngine.compute_bet` (`engine.py` steps 1-5
after the three early returns): estimate the advantage, size the bet with
the Kelly calculator (variance 1.26), cap at `table_min × max_spread`,
cap at the bankroll, and finally return `table_min` if the result fell
below it, else the amount rounded to two decimals. -/
def kelly_bet (cfg : BettingConfig) (m : AdvantageModel) (deck_adjustment : Bool)
    (true_count bankroll : ℚ) : ℚ :=
  let advantage := estimate_advantage m deck_adjustment true_count cfg.num_decks
  let bet0 := calculate_bet_amount cfg.kelly_fraction (126/100) advantage bankroll
    cfg.table_min cfg.table_max
  let bet1 := min bet0 (cfg.table_min * cfg.max_spread)
  let bet2 := min bet1 bankroll
  if bet2 < cfg.table_min then
    if 0 < advantage ∧ cfg.table_min ≤ bankroll then cfg.table_min
    else if cfg.table_min ≤ bankroll then cfg.table_min
    else 0
  else round2 bet2

/-- `BettingEngine.compute_bet` from `engine.py`: zero below the table
minimum, the table minimum in flat mode or beyond the defensive
penetration cutoff, else the Kelly-sized amount. -/
def compute_bet (cfg : BettingConfig) (m : AdvantageModel) (deck_adjustment : Bool)
    (true_count bankroll penetration : ℚ) : ℚ :=
  if bankroll < cfg.table_min then 0
  else if cfg.flat_betting then cfg.table_min
  else if cfg.max_betting_penetration < penetration then cfg.table_min
  else kelly_bet cfg m deck_adjustment true_count bankroll

/-- The wager the Simulation Driver actually places (`simulator.py` run,
lines 585-588): the agent's computed bet, overridden to `table_min` when it
is zero or below the table minimum, then clamped to the bankroll. -/
def driver_bet (cfg : BettingConfig) (m : AdvantageModel) (deck_adjustment : Bool)
    (true_count bankroll penetration : ℚ) : ℚ :=
  let bet := compute_bet cfg m deck_adjustment true_count bankroll penetration
  let bet := if bet ≤ 0 ∨ bet < cfg.table_min then cfg.table_min else bet
  min bet bankroll

/-- The true count the driver's betting step actually uses
(`simulator.py` lines 576-588): the local variable zeroed by
`use_counting = False` at line 577 is passed only to `_play_hand` for
statistics; `agent.get_bet` (line 585) re-reads the State Manager's metrics
(`simulator.py` lines 405-412) and therefore always receives the real true
count, whatever `use_counting` is. -/
def sim_placed_bet (use_counting : Bool) (cfg : BettingConfig) (m : AdvantageModel)
    (deck_adjustment : Bool) (real_true_count bankroll penetration : ℚ) : ℚ :=
  let _stats_tc : ℚ := if use_counting then real_true_count else 0
  driver_bet cfg m deck_adjustment real_true_count bankroll penetration

/-- `manager.py` `GameRules` (deck-related fields only). -/
structure SMRules where
  num_decks : ℕ
  cards_per_deck : ℕ
deriving DecidableEq, Repr

/-- `GameRules.total_cards` property from `manager.py`. -/
def SMRules.total_cards (r : SMRules) : ℕ := r.num_decks * r.cards_per_deck

/-- The mutable counters of `StateManager`: running count and cards seen. -/
structure SMState where
  running_count : ℤ
  cards_seen : ℕ
deriving DecidableEq, Repr

/-- `StateManager.observe` from `manager.py`: add each card's Hi-Lo tag to
the running count and bump the seen counter. -/
def observe (s : SMState) (cards : List Card) : SMState :=
  cards.foldl (fun s c => ⟨s.running_count + c.hilo_tag, s.cards_seen + 1⟩) s

/-- `StateManager.reset(burn_count)` from `manager.py`: running count back
to zero, cards seen set to the burn count. -/
def reset (burn_count : ℕ) : SMState := ⟨0, burn_count⟩

/-- `types.py` `GameState`, the snapshot returned by `get_metrics`. -/
structure GameState where
  true_count : ℚ
  cards_remaining : ℤ
  running_count : ℤ
  decks_remaining : ℚ
  penetration : ℚ
deriving DecidableEq, Repr

/-- `StateManager._calculate_decks_remaining`: remaining cards over cards
per deck, clamped to a minimum of 0.5. -/
def calculate_decks_remaining (r : SMRules) (s : SMState) : ℚ :=
  max (1/2) ((((r.total_cards : ℤ) - (s.cards_seen : ℤ) : ℤ) : ℚ) / (r.cards_per_deck : ℚ))

/-- `StateManager.get_metrics` from `manager.py`. -/
def get_metrics (r : SMRules) (s : SMState) : GameState :=
  let decks := calculate_decks_remaining r s
  ⟨(s.running_count : ℚ) / decks,
   (r.total_cards : ℤ) - (s.cards_seen : ℤ),
   s.running_count,
   decks,
   if 0 < r.total_cards then (s.cards_seen : ℚ) / (r.total_cards : ℚ) else 0⟩

/-- Player Ten-Six (hard 16), as in the repository's strategy tests. -/
def hand_T6 : Hand := Hand.from_cards [⟨.TEN, .SPADES⟩, ⟨.SIX, .HEARTS⟩]

/-- Player Eight-Eight (a pair of 8s totalling 16). -/
def hand_88 : Hand := Hand.from_cards [⟨.EIGHT, .SPADES⟩, ⟨.EIGHT, .HEARTS⟩]

/-- Player Five-Two-Four: a three-card hard 11. -/
def hand_524 : Hand := Hand.from_cards [⟨.FIVE, .SPADES⟩, ⟨.TWO, .SPADES⟩, ⟨.FOUR, .SPADES⟩]

/-- Player Ace-Seven (two-card soft 18). -/
def hand_A7 : Hand := Hand.from_cards [⟨.ACE, .SPADES⟩, ⟨.SEVEN, .HEARTS⟩]

/-- Dealer up-card Ten of Diamonds. -/
def card_ten : Card := ⟨.TEN, .DIAMONDS⟩

/-- Dealer up-card Ace of Diamonds. -/
def card_ace : Card := ⟨.ACE, .DIAMONDS⟩

/-- Dealer up-card Three of Diamonds. -/
def card_three : Card := ⟨.THREE, .DIAMONDS⟩

/-- A one-entry strategy table holding the conditional token `Ds`
(double if legal, else stand) for soft 18 against a 3. -/
def ds_table : List (String × String) := [("S_18:03", "Ds")]

/-- A user-supplied deviation whose prescribed action (HIT) coincides with
the baseline action for hard 16 vs 10; the engine accepts such sets through
the same interface as the standard ones. -/
def custom_16v10_hit : Deviation :=
  ⟨"CUSTOM_16v10", ⟨HandType.HARD, 16, 10⟩, ⟨0, .ABOVE_OR_EQUAL, .HIT⟩, 1⟩

/-- The advantage model the simulator's agent builds for the default
`GameRules` (S17, DAS, LS, 3:2): baseline edge 0.004. -/
def s17_model : AdvantageModel := advantage_model_from_rules default_game_rules

/-- Helper: observing a card sequence adds the algebraic sum of its Hi-Lo
tags to the running count and its length to the seen counter. -/
theorem observe_running_count_cards_seen (s : SMState) (cards : List Card) :
    (observe s cards).running_count = s.running_count + (cards.map Card.hilo_tag).sum ∧
    (observe s cards).cards_seen = s.cards_seen + cards.length := by
  induction cards generalizing s with
  | nil => simp [observe]
  | cons c cs ih =>
    obtain ⟨h1, h2⟩ := ih ⟨s.running_count + c.hilo_tag, s.cards_seen + 1⟩
    simp only [observe, List.foldl_cons] at h1 h2 ⊢
    refine ⟨?_, ?_⟩
    · rw [h1]; simp; ring
    · rw [h2]; simp; omega

/-- C1: with `use_counting = false` and Kelly betting, the driver is claimed
to wager `compute_bet(0, bankroll, penetration)`; in the code the zeroed
count is used only for statistics while `agent.get_bet` recomputes the real
metrics, so at a real true count of 4 (bankroll 10000, fresh shoe, default
S17 rules) the wager placed is $63.49, not the $10 that a zero count
produces. -/
theorem C1_counting_off_bet_eval :
    sim_placed_bet false default_betting_config s17_model true 4 10000 0 = 6349/100 ∧
    compute_bet default_betting_config s17_model true 0 10000 0 = 10 ∧
    sim_placed_bet false default_betting_config s17_model true 4 10000 0 ≠
      compute_bet default_betting_config s17_model true 0 10000 0 := by decide

/-- C2: `decide` is claimed never to return DOUBLE on a hand of more than
two cards; on the three-card hard 11 (5,2,4) against an Ace at true count 1
the Illustrious-18 deviation 11vA fires and its DOUBLE is returned without
passing through `_validate_action`, which would have degraded it to HIT. -/
theorem C2_deviation_action_skips_validation :
    (decide_with_context fallback_strategy standard_deviations true 0
        hand_524 card_ace 1 true).action = Action.DOUBLE ∧
    2 < hand_524.cards.length ∧
    validate_action Action.DOUBLE hand_524 = Action.HIT := by decide

/-- C3 counterexample: the claim says a BELOW deviation with margin m fires
exactly when `true_count < threshold − m`; for the 12v4 deviation
(threshold 0, BELOW) with margin 1 at true count 1/2 the code's predicate
fires (1/2 − 1 < 0) although 1/2 < 0 − 1 is false. -/
theorem C3_below_margin_counterexample :
    dev_predicate ILL_12v4 (1/2) 1 = true ∧
    ¬ ((ILL_12v4.rule.direction = DeviationDirection.ABOVE_OR_EQUAL ∧
          ILL_12v4.rule.threshold + 1 ≤ (1/2 : ℚ)) ∨
       (ILL_12v4.rule.direction = DeviationDirection.BELOW ∧
          (1/2 : ℚ) < ILL_12v4.rule.threshold - 1)) := by decide

/-- C3 as amended: the deviation predicate in `decide` (the margin is
subtracted from the true count before the comparison) fires exactly when
direction is AT_OR_ABOVE and `true_count ≥ threshold + margin`, or
direction is BELOW and `true_count < threshold + margin` — so a positive
margin makes BELOW deviations easier, not harder, to trigger. -/
theorem C3_margin_predicate_amended (d : Deviation) (tc margin : ℚ)
    (hm : 0 ≤ margin) :
    dev_predicate d tc margin = true ↔
      ((d.rule.direction = DeviationDirection.ABOVE_OR_EQUAL ∧
          d.rule.threshold + margin ≤ tc) ∨
       (d.rule.direction = DeviationDirection.BELOW ∧
          tc < d.rule.threshold + margin)) := by
  cases hdir : d.rule.direction <;>
    simp only [dev_predicate, Deviation.is_triggered, hdir, decide_eq_true_eq,
      true_and, false_and, or_false, false_or, and_false, and_true, reduceCtorEq] <;>
    constructor <;> intro h <;> linarith

/-- C3 amended witness: the 16v10 deviation (threshold 0, AT_OR_ABOVE) with
margin 1 at true count 5. -/
theorem C3_margin_predicate_amended_witness :
    (0:ℚ) ≤ 1 ∧
    (dev_predicate ILL_16v10 5 1 = true ↔
      ((ILL_16v10.rule.direction = DeviationDirection.ABOVE_OR_EQUAL ∧
          ILL_16v10.rule.threshold + 1 ≤ (5:ℚ)) ∨
       (ILL_16v10.rule.direction = DeviationDirection.BELOW ∧
          (5:ℚ) < ILL_16v10.rule.threshold + 1))) :=
  ⟨by norm_num, C3_margin_predicate_amended ILL_16v10 5 1 (by norm_num)⟩

/-- C4 counterexample: with bankroll $5 below the $10 table minimum the
Betting Engine returns 0, yet the driver does not stop — it overrides the
zero bet to `min(table_min, bankroll) = 5` and plays the hand. -/
theorem C4_zero_bet_hand_still_played :
    compute_bet default_betting_config default_model true 0 5 0 = 0 ∧
    (5:ℚ) < default_betting_config.table_min ∧
    driver_bet default_betting_config default_model true 0 5 0 = 5 ∧
    ¬ driver_bet default_betting_config default_model true 0 5 0 ≤ 0 := by decide

/-- C4 as amended: the driver's per-hand loop terminates (the wager it
would place is ≤ 0) exactly when the bankroll is ≤ 0; when the computed
bet is zero because `0 < bankroll < table_min`, the driver instead wagers
the whole remaining bankroll and plays the hand. -/
theorem C4_run_stops_iff_bankroll_nonpos (cfg : BettingConfig)
    (m : AdvantageModel) (da : Bool) (tc bankroll pen : ℚ)
    (h : 0 < cfg.table_min) :
    driver_bet cfg m da tc bankroll pen ≤ 0 ↔ bankroll ≤ 0 := by
  simp only [driver_bet]
  set b := compute_bet cfg m da tc bankroll pen with hb
  constructor
  · intro hle
    rcases min_le_iff.mp hle with h1 | h1
    · by_cases hc : b ≤ 0 ∨ b < cfg.table_min
      · rw [if_pos hc] at h1; linarith
      · rw [if_neg hc] at h1
        push_neg at hc
        linarith [hc.2]
    · exact h1
  · intro hble
    exact le_trans (min_le_right _ _) hble

/-- C4 amended witness: at bankroll 0 the driver's wager is ≤ 0 and the
run stops. -/
theorem C4_run_stops_iff_witness :
    (0:ℚ) < default_betting_config.table_min ∧
    (driver_bet default_betting_config default_model true 0 0 0 ≤ 0 ↔
      (0:ℚ) ≤ 0) :=
  ⟨by decide,
   C4_run_stops_iff_bankroll_nonpos default_betting_config default_model
     true 0 0 0 (by decide)⟩

/-- C5: the claim says `Ds` resolves to DOUBLE when doubling is legal and
otherwise STAND, using the rules; in the code the token map does contain
`Ds ↦ DOUBLE`, but `lookup` uppercases the token first, so `Ds` resolves to
nothing at all, the rules are never consulted (lookup takes no rules
argument), and the engine falls back to the hand-coded chart — for soft 18
vs 3 it returns STAND instead of the claimed DOUBLE. -/
theorem C5_conditional_tokens_unresolved :
    action_map.lookup "Ds" = some Action.DOUBLE ∧
    token_to_action "Ds" = none ∧
    lookup_action ds_table hand_A7 card_three = none ∧
    get_baseline_action ds_table hand_A7 card_three = Action.STAND := by decide

/-- C6: the claimed invariant "the returned bet never exceeds bankroll"
fails: with the default configuration, bankroll $10.006 and true count 600
the Kelly bet is clamped to the bankroll but the final two-decimal
rounding lifts it to $10.01 > $10.006. -/
theorem C6_bet_exceeds_bankroll_eval :
    compute_bet default_betting_config default_model true 600 (5003/500) 0 =
      1001/100 ∧
    (5003:ℚ)/500 < 1001/100 := by decide

/-- C7: with flat betting off and bankroll at least the table minimum,
`compute_bet` returns exactly `table_min` at every penetration strictly
beyond `max_betting_penetration`, while at penetration exactly equal to
the cutoff it returns the Kelly-sized amount. -/
theorem C7_defensive_cutoff (cfg : BettingConfig) (m : AdvantageModel)
    (da : Bool) (tc bankroll : ℚ) (hflat : cfg.flat_betting = false)
    (hbr : cfg.table_min ≤ bankroll) :
    (∀ pen : ℚ, cfg.max_betting_penetration < pen →
        compute_bet cfg m da tc bankroll pen = cfg.table_min) ∧
    compute_bet cfg m da tc bankroll cfg.max_betting_penetration =
      kelly_bet cfg m da tc bankroll := by
  constructor
  · intro pen hpen
    simp [compute_bet, hflat, not_lt.mpr hbr, hpen]
  · simp [compute_bet, hflat, not_lt.mpr hbr]

/-- C7 witness: the S6/S7 scenario — true count 10, bankroll 10000; beyond
the 0.85 cutoff the bet is $10, at exactly 0.85 it is the Kelly amount
$120 (spread-capped), which differs from the minimum. -/
theorem C7_defensive_cutoff_witness :
    (default_betting_config.flat_betting = false ∧
      default_betting_config.table_min ≤ (10000:ℚ)) ∧
    ((∀ pen : ℚ, default_betting_config.max_betting_penetration < pen →
        compute_bet default_betting_config default_model true 10 10000 pen =
          default_betting_config.table_min) ∧
      compute_bet default_betting_config default_model true 10 10000
          default_betting_config.max_betting_penetration =
        kelly_bet default_betting_config default_model true 10 10000) ∧
    kelly_bet default_betting_config default_model true 10 10000 = 120 ∧
    (120:ℚ) ≠ default_betting_config.table_min :=
  ⟨⟨rfl, by decide⟩,
   C7_defensive_cutoff default_betting_config default_model true 10 10000
     rfl (by decide),
   by decide, by decide⟩

/-- C8: after `reset(burn_count = k)` and observing any card sequence, the
running count is the algebraic sum of the sequence's Hi-Lo tags, cards
seen is k plus the sequence length, the snapshot's decks remaining is
`(total_cards − cards_seen) / cards_per_deck` clamped to at least 0.5, and
the true count is the running count over that clamped value. -/
theorem C8_state_counts (r : SMRules) (k : ℕ) (cards : List Card) :
    (observe (reset k) cards).running_count = (cards.map Card.hilo_tag).sum ∧
    (observe (reset k) cards).cards_seen = k + cards.length ∧
    (get_metrics r (observe (reset k) cards)).decks_remaining =
      max (1/2)
        ((((r.total_cards : ℤ) - ((observe (reset k) cards).cards_seen : ℤ) : ℤ) : ℚ) /
          (r.cards_per_deck : ℚ)) ∧
    (get_metrics r (observe (reset k) cards)).true_count =
      ((observe (reset k) cards).running_count : ℚ) /
        (get_metrics r (observe (reset k) cards)).decks_remaining := by
  obtain ⟨h1, h2⟩ := observe_running_count_cards_seen (reset k) cards
  refine ⟨?_, ?_, rfl, rfl⟩
  · simpa [reset] using h1
  · simpa [reset] using h2

/-- C9: a decision's `deviated` flag is true exactly when the chosen action
differs from the baseline action; and when a deviation fires whose
prescribed action equals the baseline (a user-supplied hard-16-vs-10 HIT
deviation at true count 0), `decide` returns a non-null `deviation_id` with
`deviated = false`. -/
theorem C9_deviated_flag :
    (∀ (table : List (String × String)) (devs : List Deviation) (sa : Bool)
        (margin : ℚ) (hand : Hand) (dealer_up : Card) (tc : ℚ) (ud : Bool),
      (decide_with_context table devs sa margin hand dealer_up tc ud).deviated = true ↔
        (decide_with_context table devs sa margin hand dealer_up tc ud).action ≠
          (decide_with_context table devs sa margin hand dealer_up tc ud).baseline_action) ∧
    (decide_with_context fallback_strategy [custom_16v10_hit] true 0
        hand_T6 card_ten 0 true).deviation_id = some "DEV_H16v10" ∧
    (decide_with_context fallback_strategy [custom_16v10_hit] true 0
        hand_T6 card_ten 0 true).deviated = false := by
  refine ⟨fun table devs sa margin hand dealer_up tc ud => ?_, by decide, by decide⟩
  simp [DecisionResult.deviated]

/-- C10: the deviation check classifies a pair hand as PAIR (pair takes
precedence over soft and hard) and consults only PAIR-keyed deviations:
filtering the deviation list down to PAIR triggers does not change the
result; in particular a pair of 8s (hard total 16) vs 10 fires no standard
deviation at any true count, although a hard-16-vs-10 deviation exists. -/
theorem C10_pair_only_pair_deviations :
    (∀ (devs : List Deviation) (hand : Hand) (dealer_up : Card) (tc : ℚ),
      hand.is_pair = true →
      check_deviation devs hand dealer_up tc =
        check_deviation
          (devs.filter (fun d => d.trigger.hand_type = HandType.PAIR))
          hand dealer_up tc) ∧
    (∀ tc : ℚ, check_deviation standard_deviations hand_88 card_ten tc = none) := by
  constructor
  · intro devs hand dealer_up tc hpair
    have hkey : dev_key hand dealer_up =
        (HandType.PAIR, hand.pair_value, dealerValue dealer_up) := by
      simp [dev_key, hpair]
    simp only [check_deviation, hkey, List.filter_filter]
    have hfilter :
        devs.filter
            (fun d => matches_index d (HandType.PAIR, hand.pair_value, dealerValue dealer_up)) =
          devs.filter
            (fun d => matches_index d (HandType.PAIR, hand.pair_value, dealerValue dealer_up) &&
              decide (d.trigger.hand_type = HandType.PAIR)) := by
      apply List.filter_congr
      intro d _
      by_cases htype : d.trigger.hand_type = HandType.PAIR
      · simp [htype]
      · simp [matches_index, htype]
    rw [hfilter]
  · intro tc
    rfl

/-- C10 witness: the pair of 8s vs 10 at true count 16. -/
theorem C10_pair_only_pair_deviations_witness :
    hand_88.is_pair = true ∧
    check_deviation standard_deviations hand_88 card_ten 16 =
      check_deviation
        (standard_deviations.filter (fun d => d.trigger.hand_type = HandType.PAIR))
        hand_88 card_ten 16 :=
  ⟨by decide,
   C10_pair_only_pair_deviations.1 standard_deviations hand_88 card_ten 16 (by decide)⟩

end BJA
